import Mathlib

/-!
Verification of the bulk STX transfer CLI (`src/commands/send-many.ts`).

The single source file defines the `SendMany` command: it parses positional
`address,amount` tokens into recipients, resolves a Stacks network preset
(`mainnet`, `testnet`, `mocknet`) with an optional `--nodeUrl` endpoint
override, picks a default send-many contract identifier from the network's
chain id, builds and signs the transaction through the external `sendMany`
builder, and either prints the serialized transaction hex or broadcasts it,
with optional verbose diagnostics.

This file is a shallow embedding of that pipeline.  External collaborators
(`validateStacksAddress`, the `sendMany` builder's transaction object and its
serialization, the broadcast client) are parameters of the embedded `run`;
everything the command itself computes is embedded directly from the source.
-/

/-- Chain identifier enum from `@stacks/transactions` (`ChainID.Mainnet`,
`ChainID.Testnet`); the command only ever compares chain ids for equality. -/
inductive ChainID where
  | Mainnet
  | Testnet
deriving DecidableEq, Repr

/-- A Stacks network descriptor as the command uses it: a chain id and the
`coreApiUrl` endpoint field that `--nodeUrl` overwrites. -/
structure StacksNetwork where
  chainId : ChainID
  coreApiUrl : String
deriving DecidableEq, Repr

/-- Modelled from the spec: the `@stacks/network` presets are an external
dependency, not under `src/`.  Per the spec, each named network maps to a
fixed chain identifier and default API endpoint; `StacksMainnet` is the
production network. -/
def StacksMainnet : StacksNetwork :=
  { chainId := ChainID.Mainnet
    coreApiUrl := "https://stacks-node-api.mainnet.stacks.co" }

/-- Modelled from the spec: the `@stacks/network` testnet preset (Testnet
chain identifier, hosted testnet endpoint). -/
def StacksTestnet : StacksNetwork :=
  { chainId := ChainID.Testnet
    coreApiUrl := "https://stacks-node-api.testnet.stacks.co" }

/-- Modelled from the spec: the `@stacks/network` mocknet preset, a local
test network: it carries the Testnet chain identifier and a localhost
endpoint. -/
def StacksMocknet : StacksNetwork :=
  { chainId := ChainID.Testnet
    coreApiUrl := "http://localhost:3999" }

/-- The closed set of `--network` option values (`NetworkString` in the
source); the oclif option parser rejects anything else upstream. -/
inductive NetworkString where
  | mocknet
  | mainnet
  | testnet
deriving DecidableEq, Repr

/-- `DEFAULT_TESTNET_CONTRACT` (send-many.ts line 17). -/
def DEFAULT_TESTNET_CONTRACT : String :=
  "STB44HYPYAT2BB2QE513NSP81HTMYWBJP02HPGK6.send-many"

/-- `DEFAULT_MAINNET_CONTRACT` (send-many.ts line 19). -/
def DEFAULT_MAINNET_CONTRACT : String := "not-deployed"

/-- `SendMany.getNetwork` (lines 85-94): look the `--network` value up in
the preset table.  For every value of the closed set the lookup succeeds,
so the `if (!networkClass) throw` guard of line 120 is unreachable. -/
def getNetwork : NetworkString → StacksNetwork
  | NetworkString.mainnet => StacksMainnet
  | NetworkString.testnet => StacksTestnet
  | NetworkString.mocknet => StacksMocknet

/-- `SendMany.getContract` (lines 96-100): the default contract identifier
is chosen by the network's chain id alone. -/
def getContract (network : StacksNetwork) : String :=
  if network.chainId = ChainID.Testnet then DEFAULT_TESTNET_CONTRACT
  else DEFAULT_MAINNET_CONTRACT

/-- Lines 119-126 of `run`: construct the preset network, then overwrite
`coreApiUrl` when `--nodeUrl` was given.  The guard `if (flags.nodeUrl)`
is a JavaScript truthiness test: an absent flag and an empty override
string are both falsy, so an empty `--nodeUrl` leaves the preset endpoint
in place. -/
def resolveNetwork (name : NetworkString) (nodeUrl : Option String) : StacksNetwork :=
  let network0 := getNetwork name
  match nodeUrl with
  | some u => if u = "" then network0 else { network0 with coreApiUrl := u }
  | none => network0

/-- A recipient record (`Recipient` from `src/builder.ts`): the address and
amount substrings of one positional token. -/
structure Recipient where
  address : String
  amount : String
deriving DecidableEq, Repr

/-- JavaScript `String.prototype.split` with a one-character separator and
no limit: splits at every occurrence, `"".split(c) = [""]`. -/
def splitOnChar (c : Char) : List Char → List (List Char)
  | [] => [[]]
  | x :: xs =>
    let r := splitOnChar c xs
    if x = c then [] :: r
    else
      match r with
      | [] => [[x]]
      | h :: t => (x :: h) :: t

/-- Modelled from the spec: `isNormalInteger` lives in `src/builder.ts`,
which is not under `src/`.  The spec requires accepting exactly strings of
one or more decimal digits with no leading zero, the literal `"0"` itself
excepted from the leading-zero rule; empty strings, signs, decimals and
non-digit characters are rejected. -/
def isNormalInteger (s : String) : Bool :=
  match s.toList with
  | [] => false
  | '0' :: cs => cs.isEmpty
  | c :: cs => c.isDigit && cs.all Char.isDigit

/-- Lines 105-117 of `run`, for a single positional token: split the token
on commas, destructure the first two parts as address and amount (the
amount is absent when the token holds no comma), validate the address with
the external `validateStacksAddress` and the amount with
`isNormalInteger`, throwing on the first failure.  Further parts beyond
the second are dropped by the destructuring, exactly as
`const [address, amount] = arg.split(',')` drops them. -/
def parseRecipient (validateStacksAddress : String → Bool) (arg : String) :
    Except String Recipient :=
  let parts := (splitOnChar ',' arg.toList).map fun l => String.mk l
  let address := parts.headD ""
  let amount := parts[1]?
  if !validateStacksAddress address then
    Except.error (address ++ " is not a valid STX address")
  else
    match amount with
    | none => Except.error "undefined is not a valid integer."
    | some a =>
      if !isNormalInteger a then Except.error (a ++ " is not a valid integer.")
      else Except.ok { address := address, amount := a }

/-- `argv.map(...)` of lines 105-117: validate every token in order,
propagating the first thrown error. -/
def parseRecipients (validateStacksAddress : String → Bool) :
    List String → Except String (List Recipient)
  | [] => Except.ok []
  | arg :: rest => do
    let r ← parseRecipient validateStacksAddress arg
    let rs ← parseRecipients validateStacksAddress rest
    Except.ok (r :: rs)

/-- The parsed CLI flags of the command (lines 39-73), after oclif has
applied defaults and the closed-set check on `network`. -/
structure Flags where
  privateKey : String
  broadcast : Bool
  network : NetworkString
  nodeUrl : Option String
  verbose : Bool
  contractAddress : Option String
  nonce : Option Int
deriving DecidableEq, Repr

/-- Modelled from the spec: the argument record of the `sendMany` builder
(`src/builder.ts`, not under `src/`).  Per the spec the builder accepts the
recipients, network, sender key, contract identifier and an optional nonce
that, when present, is forwarded to the transaction codec. -/
structure SendManyArgs where
  recipients : List Recipient
  network : StacksNetwork
  senderKey : String
  contractIdentifier : String
  nonce : Option Int
deriving DecidableEq, Repr

/-- The argument record the command passes to `sendMany` (lines 130-135).
The object literal at the call site carries no `nonce` key and never reads
`flags.contractAddress`: the nonce forwarded is `none` and the contract
identifier is always `getContract network`. -/
def sendManyArgsOf (validateStacksAddress : String → Bool)
    (argv : List String) (flags : Flags) : Except String SendManyArgs :=
  (parseRecipients validateStacksAddress argv).map fun recipients =>
    let network := resolveNetwork flags.network flags.nodeUrl
    { recipients := recipients
      network := network
      senderKey := flags.privateKey
      contractIdentifier := getContract network
      nonce := none }

/-- Result of the external `broadcastTransaction` call when its promise
resolves: either a transaction id string or the node's rejection payload
(`payload` stands for the textual rendering of that error object, which is
what the command prints). -/
inductive TxBroadcastResult where
  | ok (txid : String)
  | rejected (payload : String)
deriving DecidableEq, Repr

/-- The textual rendering of a broadcast result when the command prints it:
the command prints the result value unconditionally, whichever variant it
is. -/
def displayResult : TxBroadcastResult → String
  | TxBroadcastResult.ok txid => txid
  | TxBroadcastResult.rejected payload => payload

/-- Behavior of the external broadcast call: its promise either rejects
(network unreachable) or resolves to a `TxBroadcastResult`. -/
inductive BroadcastOutcome where
  | throws (msg : String)
  | returns (result : TxBroadcastResult)

/-- Observable events of a run, in order: a line printed to standard
output, or the attempt to submit the transaction to the node. -/
inductive Event where
  | line (s : String)
  | submit
deriving DecidableEq, Repr

/-- Nibble to lowercase hexadecimal digit, as Node's
`Buffer.toString('hex')` renders it. -/
def hexDigitChar (n : Nat) : Char :=
  match n with
  | 0 => '0'
  | 1 => '1'
  | 2 => '2'
  | 3 => '3'
  | 4 => '4'
  | 5 => '5'
  | 6 => '6'
  | 7 => '7'
  | 8 => '8'
  | 9 => '9'
  | 10 => 'a'
  | 11 => 'b'
  | 12 => 'c'
  | 13 => 'd'
  | 14 => 'e'
  | _ => 'f'

/-- `tx.serialize().toString('hex')`: each byte becomes two lowercase hex
digits, high nibble first. -/
def hexOfBytes (bs : List Nat) : String :=
  String.mk (bs.flatMap fun b => [hexDigitChar (b / 16 % 16), hexDigitChar (b % 16)])

/-- The outcome of one run: the ordered events it produced on standard
output plus the submission attempt, and whether the run completed without
throwing. -/
structure RunResult where
  events : List Event
  ok : Bool
deriving DecidableEq, Repr

/-- `SendMany.run` (lines 102-158).  Parameters stand for the external
collaborators: `validateStacksAddress` for the address checker,
`serializeBytes` for the bytes of `sendMany(...)` followed by
`tx.serialize()` (the signed transaction is opaque and only ever
serialized or submitted), and `outcome` for the broadcast call's behavior.
A thrown validation error ends the run before any output; a rejected
broadcast promise ends it after the submission attempt, keeping the lines
already printed. -/
def run (validateStacksAddress : String → Bool)
    (serializeBytes : SendManyArgs → List Nat) (outcome : BroadcastOutcome)
    (argv : List String) (flags : Flags) : RunResult :=
  match sendManyArgsOf validateStacksAddress argv flags with
  | Except.error _ => { events := [], ok := false }
  | Except.ok args =>
    let network := args.network
    let txHex := hexOfBytes (serializeBytes args)
    let diag := if flags.verbose then [Event.line ("Transaction hex: " ++ txHex)] else []
    if flags.broadcast then
      match outcome with
      | BroadcastOutcome.throws _ => { events := diag ++ [Event.submit], ok := false }
      | BroadcastOutcome.returns result =>
        if flags.verbose then
          { events := diag ++
              [Event.submit,
               Event.line ("Transaction ID: " ++ displayResult result),
               Event.line ("View in explorer: https://explorer.stacks.co/txid/0x" ++
                 displayResult result ++ "?chain=" ++
                 (if network.chainId = ChainID.Mainnet then "mainnet" else "testnet"))]
            ok := true }
        else
          { events := diag ++ [Event.submit, Event.line (displayResult result)], ok := true }
    else
      { events := diag ++ [Event.line txHex], ok := true }

/-- A lowercase hexadecimal digit character. -/
def isLowerHexChar (c : Char) : Bool :=
  c.isDigit || (decide ('a' ≤ c) && decide (c ≤ 'f'))

theorem hexDigitChar_lower (n : Nat) : isLowerHexChar (hexDigitChar n) = true := by
  unfold hexDigitChar
  split <;> decide

theorem hexOfBytes_lower (bs : List Nat) :
    (hexOfBytes bs).toList.all isLowerHexChar = true := by
  induction bs with
  | nil => rfl
  | cons b rest ih =>
    have h : (hexOfBytes (b :: rest)).toList =
        [hexDigitChar (b / 16 % 16), hexDigitChar (b % 16)] ++ (hexOfBytes rest).toList := rfl
    rw [h, List.all_append, ih]
    simp [hexDigitChar_lower]

theorem mk_toList (l : List Char) : (String.mk l).toList = l := rfl

theorem sendManyArgsOf_ok {v : String → Bool} {argv : List String} {flags : Flags}
    {args : SendManyArgs} (h : sendManyArgsOf v argv flags = Except.ok args) :
    args.network = resolveNetwork flags.network flags.nodeUrl ∧
    args.contractIdentifier = getContract (resolveNetwork flags.network flags.nodeUrl) ∧
    args.nonce = none ∧ args.senderKey = flags.privateKey := by
  unfold sendManyArgsOf at h
  cases hp : parseRecipients v argv with
  | error e =>
    rw [hp] at h
    simp only [Except.map] at h
    exact absurd h (by simp)
  | ok rs =>
    rw [hp] at h
    simp only [Except.map] at h
    cases h
    exact ⟨rfl, rfl, rfl, rfl⟩

theorem splitOnChar_append_cons (c : Char) (a rest : List Char) (ha : c ∉ a) :
    splitOnChar c (a ++ c :: rest) = a :: splitOnChar c rest := by
  induction a with
  | nil => simp [splitOnChar]
  | cons x xs ih =>
    have hx : ¬x = c := fun h => ha (by simp [h])
    have ha' : c ∉ xs := fun h => ha (List.mem_cons_of_mem _ h)
    simp only [List.cons_append, splitOnChar, List.append_eq, ih ha', if_neg hx]

/-- C1: the `--contractAddress` flag is ignored: with an explicit contract
identifier supplied, the arguments passed to `sendMany` still carry the
built-in default contract for the resolved network, not the supplied
string. -/
theorem C1_contractAddress_flag_ignored :
    sendManyArgsOf (fun _ => true) ["STADMRP577SC3MCNP7T3PRSTZBJ75FJ59JGABZTW,100"]
      { privateKey := "k", broadcast := false, network := NetworkString.testnet,
        nodeUrl := none, verbose := false,
        contractAddress := some "SP000000000000000000002Q6VF78.custom-send-many",
        nonce := none } =
      Except.ok
        { recipients := [{ address := "STADMRP577SC3MCNP7T3PRSTZBJ75FJ59JGABZTW", amount := "100" }]
          network := StacksTestnet
          senderKey := "k"
          contractIdentifier := DEFAULT_TESTNET_CONTRACT
          nonce := none } ∧
    DEFAULT_TESTNET_CONTRACT ≠ "SP000000000000000000002Q6VF78.custom-send-many" :=
  ⟨rfl, by decide⟩

/-- C2: the `--nonce` flag is ignored: with an explicit nonce supplied, the
argument record passed to `sendMany` carries no nonce, so the transaction
cannot use the explicit value. -/
theorem C2_nonce_flag_not_forwarded :
    sendManyArgsOf (fun _ => true) ["STADMRP577SC3MCNP7T3PRSTZBJ75FJ59JGABZTW,100"]
      { privateKey := "k", broadcast := false, network := NetworkString.testnet,
        nodeUrl := none, verbose := false, contractAddress := none,
        nonce := some 5 } =
      Except.ok
        { recipients := [{ address := "STADMRP577SC3MCNP7T3PRSTZBJ75FJ59JGABZTW", amount := "100" }]
          network := StacksTestnet
          senderKey := "k"
          contractIdentifier := DEFAULT_TESTNET_CONTRACT
          nonce := none } ∧
    (none : Option Int) ≠ some 5 :=
  ⟨rfl, by decide⟩

/-- C3 counterexample: the token `"STADMRP…,100,extra"` is not split on its
first comma only: the code splits on every comma and destructures the
first two parts, so the amount substring is `"100"` (not `"100,extra"`)
and the token is accepted, while the amount substring the claim predicts
would indeed fail the amount check. -/
theorem C3_split_counterexample :
    parseRecipient (fun _ => true) "STADMRP577SC3MCNP7T3PRSTZBJ75FJ59JGABZTW,100,extra" =
      Except.ok { address := "STADMRP577SC3MCNP7T3PRSTZBJ75FJ59JGABZTW", amount := "100" } ∧
    isNormalInteger "100,extra" = false :=
  ⟨rfl, by decide⟩

/-- C3 amended: each token is split on every comma; the part before the
first comma is the address substring and the part between the first and
second comma is the amount substring, any later parts being dropped; a
token whose first two parts pass the address and amount checks is accepted
even when further comma-separated parts follow. -/
theorem C3_amended_split_on_every_comma :
    ∀ (v : String → Bool) (a m p : List Char),
      ',' ∉ a → ',' ∉ m →
      v (String.mk a) = true → isNormalInteger (String.mk m) = true →
      parseRecipient v (String.mk (a ++ (',' :: (m ++ (',' :: p))))) =
        Except.ok { address := String.mk a, amount := String.mk m } := by
  intro v a m p ha hm hv hnorm
  unfold parseRecipient
  simp only [mk_toList]
  rw [splitOnChar_append_cons ',' a _ ha, splitOnChar_append_cons ',' m p hm]
  simp [hv, hnorm]

/-- C3 amended, witness: the concrete token `"AB,100,ex"` is accepted with
address `"AB"` and amount `"100"`. -/
theorem C3_amended_witness :
    parseRecipient (fun s => decide (s = "AB"))
        (String.mk (['A', 'B'] ++ (',' :: (['1', '0', '0'] ++ (',' :: ['e', 'x']))))) =
      Except.ok { address := String.mk ['A', 'B'], amount := String.mk ['1', '0', '0'] } :=
  C3_amended_split_on_every_comma _ _ _ _ (by decide) (by decide) (by decide) (by decide)

/-- Number of submission attempts in a run's event list. -/
def countSubmit (es : List Event) : Nat :=
  es.countP fun e =>
    match e with
    | Event.submit => true
    | _ => false

/-- C4 counterexample: a broadcast run in which the node returns a
rejection payload does not fail: the run completes with `ok := true` and
prints the rejection payload exactly where a transaction id would have
been printed. -/
theorem C4_rejection_printed_counterexample :
    run (fun _ => true) (fun _ => [222, 173])
      (BroadcastOutcome.returns (TxBroadcastResult.rejected "ConflictingNonceInMempool"))
      ["STADMRP577SC3MCNP7T3PRSTZBJ75FJ59JGABZTW,100"]
      { privateKey := "k", broadcast := true, network := NetworkString.testnet,
        nodeUrl := none, verbose := false, contractAddress := none, nonce := none } =
      { events := [Event.submit, Event.line "ConflictingNonceInMempool"], ok := true } :=
  rfl

/-- C4 amended: the command never inspects the broadcast result: whatever
the node returns, transaction id or error payload, is printed as the
output and the run succeeds; only a rejected promise (network unreachable)
fails the run, after the single submission attempt; in every case the
submission happens exactly once and is never retried. -/
theorem C4_amended_result_printed_no_retry :
    ∀ (v : String → Bool) (sb : SendManyArgs → List Nat) (argv : List String)
      (flags : Flags) (args : SendManyArgs),
      flags.broadcast = true →
      sendManyArgsOf v argv flags = Except.ok args →
      (∀ r : TxBroadcastResult,
        (run v sb (BroadcastOutcome.returns r) argv flags).ok = true ∧
        countSubmit (run v sb (BroadcastOutcome.returns r) argv flags).events = 1 ∧
        (flags.verbose = false →
          Event.line (displayResult r) ∈
            (run v sb (BroadcastOutcome.returns r) argv flags).events) ∧
        (flags.verbose = true →
          Event.line ("Transaction ID: " ++ displayResult r) ∈
            (run v sb (BroadcastOutcome.returns r) argv flags).events)) ∧
      (∀ m : String,
        (run v sb (BroadcastOutcome.throws m) argv flags).ok = false ∧
        countSubmit (run v sb (BroadcastOutcome.throws m) argv flags).events = 1) := by
  intro v sb argv flags args hb h
  constructor
  · intro r
    cases hv : flags.verbose <;>
      simp [run, h, hb, hv, countSubmit]
  · intro m
    cases hv : flags.verbose <;>
      simp [run, h, hb, hv, countSubmit]

/-- C4 amended, witness: a quiet broadcast run with rejection payload
`"nope"` succeeds, submits exactly once, and prints the payload. -/
theorem C4_amended_witness :
    (run (fun _ => true) (fun _ => [1])
        (BroadcastOutcome.returns (TxBroadcastResult.rejected "nope"))
        ["STADMRP577SC3MCNP7T3PRSTZBJ75FJ59JGABZTW,1"]
        { privateKey := "k", broadcast := true, network := NetworkString.testnet,
          nodeUrl := none, verbose := false, contractAddress := none, nonce := none }).ok = true ∧
    countSubmit
      (run (fun _ => true) (fun _ => [1])
        (BroadcastOutcome.returns (TxBroadcastResult.rejected "nope"))
        ["STADMRP577SC3MCNP7T3PRSTZBJ75FJ59JGABZTW,1"]
        { privateKey := "k", broadcast := true, network := NetworkString.testnet,
          nodeUrl := none, verbose := false, contractAddress := none, nonce := none }).events = 1 ∧
    Event.line "nope" ∈
      (run (fun _ => true) (fun _ => [1])
        (BroadcastOutcome.returns (TxBroadcastResult.rejected "nope"))
        ["STADMRP577SC3MCNP7T3PRSTZBJ75FJ59JGABZTW,1"]
        { privateKey := "k", broadcast := true, network := NetworkString.testnet,
          nodeUrl := none, verbose := false, contractAddress := none, nonce := none }).events := by
  have T := C4_amended_result_printed_no_retry (fun _ => true) (fun _ => [1])
    ["STADMRP577SC3MCNP7T3PRSTZBJ75FJ59JGABZTW,1"]
    { privateKey := "k", broadcast := true, network := NetworkString.testnet,
      nodeUrl := none, verbose := false, contractAddress := none, nonce := none }
    { recipients := [{ address := "STADMRP577SC3MCNP7T3PRSTZBJ75FJ59JGABZTW", amount := "1" }]
      network := StacksTestnet, senderKey := "k",
      contractIdentifier := DEFAULT_TESTNET_CONTRACT, nonce := none }
    rfl rfl
  exact ⟨(T.1 _).1, (T.1 _).2.1, (T.1 _).2.2.1 rfl⟩

/-- C5 counterexample: with zero positional tokens the run does not fail:
validation succeeds with an empty list, `sendMany` is invoked with an
empty recipients list, and the serialized transaction hex is printed. -/
theorem C5_empty_argv_counterexample :
    sendManyArgsOf (fun _ => false) []
      { privateKey := "k", broadcast := false, network := NetworkString.testnet,
        nodeUrl := none, verbose := false, contractAddress := none, nonce := none } =
      Except.ok
        { recipients := [], network := StacksTestnet, senderKey := "k",
          contractIdentifier := DEFAULT_TESTNET_CONTRACT, nonce := none } ∧
    run (fun _ => false) (fun _ => [1]) (BroadcastOutcome.returns (TxBroadcastResult.ok "t")) []
      { privateKey := "k", broadcast := false, network := NetworkString.testnet,
        nodeUrl := none, verbose := false, contractAddress := none, nonce := none } =
      { events := [Event.line "01"], ok := true } :=
  ⟨rfl, rfl⟩

/-- C5 amended: no arity minimum is enforced: with an empty positional
argument list, validation succeeds and the argument record passed to the
assembler carries an empty recipients list; the recipients list is
non-empty only when at least one token was supplied. -/
theorem C5_amended_empty_recipients_allowed :
    ∀ (v : String → Bool) (flags : Flags),
      sendManyArgsOf v [] flags =
        Except.ok
          { recipients := []
            network := resolveNetwork flags.network flags.nodeUrl
            senderKey := flags.privateKey
            contractIdentifier := getContract (resolveNetwork flags.network flags.nodeUrl)
            nonce := none } := by
  intro v flags
  rfl

/-- C6: with no explicit contract identifier, the resolver depends on the
chain identifier alone: equal chain ids give equal contracts, a Testnet
chain id gives the fixed testnet default, and any other chain id gives the
fixed mainnet placeholder. -/
theorem C6_contract_resolver_chainId_only :
    (∀ n₁ n₂ : StacksNetwork, n₁.chainId = n₂.chainId → getContract n₁ = getContract n₂) ∧
    (∀ n : StacksNetwork, n.chainId = ChainID.Testnet →
      getContract n = "STB44HYPYAT2BB2QE513NSP81HTMYWBJP02HPGK6.send-many") ∧
    (∀ n : StacksNetwork, n.chainId ≠ ChainID.Testnet →
      getContract n = DEFAULT_MAINNET_CONTRACT) := by
  refine ⟨?_, ?_, ?_⟩
  · intro n₁ n₂ h
    unfold getContract
    rw [h]
  · intro n h
    simp [getContract, h, DEFAULT_TESTNET_CONTRACT]
  · intro n h
    simp [getContract, h]

/-- C6 witness: a Testnet-chain network resolves to the testnet default
contract and a Mainnet-chain network to the mainnet placeholder. -/
theorem C6_witness :
    getContract { chainId := ChainID.Testnet, coreApiUrl := "http://localhost:3999" } =
      "STB44HYPYAT2BB2QE513NSP81HTMYWBJP02HPGK6.send-many" ∧
    getContract { chainId := ChainID.Mainnet, coreApiUrl := "u" } = DEFAULT_MAINNET_CONTRACT :=
  ⟨C6_contract_resolver_chainId_only.2.1 _ rfl,
   C6_contract_resolver_chainId_only.2.2 _ (by decide)⟩

/-- C7: for every network name, supplying a `--nodeUrl` override changes
only the endpoint field of the resolved network: the chain identifier is
the one the same name resolves to without the override, and the endpoint
is the override string whenever that string is truthy (non-empty), the
preset default otherwise. -/
theorem C7_nodeUrl_overrides_only_endpoint :
    ∀ (name : NetworkString) (u : String),
      (resolveNetwork name (some u)).chainId = (resolveNetwork name none).chainId ∧
      (resolveNetwork name (some u)).coreApiUrl =
        (if u = "" then (resolveNetwork name none).coreApiUrl else u) := by
  intro name u
  by_cases he : u = "" <;> simp [resolveNetwork, he]

/-- C8: a successful run with broadcasting disabled and verbosity off
prints exactly one line, the hexadecimal serialization of the assembled
transaction, whose characters are all lowercase hex digits. -/
theorem C8_quiet_nonbroadcast_prints_only_hex :
    ∀ (v : String → Bool) (sb : SendManyArgs → List Nat) (outcome : BroadcastOutcome)
      (argv : List String) (flags : Flags) (args : SendManyArgs),
      flags.broadcast = false → flags.verbose = false →
      sendManyArgsOf v argv flags = Except.ok args →
      run v sb outcome argv flags =
        { events := [Event.line (hexOfBytes (sb args))], ok := true } ∧
      (hexOfBytes (sb args)).toList.all isLowerHexChar = true := by
  intro v sb outcome argv flags args hb hv h
  refine ⟨?_, hexOfBytes_lower _⟩
  simp [run, h, hb, hv]

/-- C8 witness: a quiet non-broadcast run over a transaction serializing
to bytes `de ad` prints exactly the single line `dead`. -/
theorem C8_witness :
    run (fun _ => true) (fun _ => [222, 173]) (BroadcastOutcome.returns (TxBroadcastResult.ok "t"))
      ["STADMRP577SC3MCNP7T3PRSTZBJ75FJ59JGABZTW,100"]
      { privateKey := "k", broadcast := false, network := NetworkString.testnet,
        nodeUrl := none, verbose := false, contractAddress := none, nonce := none } =
      { events := [Event.line (hexOfBytes [222, 173])], ok := true } ∧
    (hexOfBytes [222, 173]).toList.all isLowerHexChar = true :=
  C8_quiet_nonbroadcast_prints_only_hex _ _ _ _ _
    { recipients := [{ address := "STADMRP577SC3MCNP7T3PRSTZBJ75FJ59JGABZTW", amount := "100" }]
      network := StacksTestnet, senderKey := "k",
      contractIdentifier := DEFAULT_TESTNET_CONTRACT, nonce := none }
    rfl rfl rfl

/-- C9: in every verbose run that reaches assembly, the labeled
transaction-hex line is the very first event, so it precedes any
submission attempt and is already printed whatever the broadcast flag and
outcome turn out to be; a broadcast failure leaves it in place. -/
theorem C9_verbose_hex_line_first :
    ∀ (v : String → Bool) (sb : SendManyArgs → List Nat) (outcome : BroadcastOutcome)
      (argv : List String) (flags : Flags) (args : SendManyArgs),
      flags.verbose = true →
      sendManyArgsOf v argv flags = Except.ok args →
      ∃ rest, (run v sb outcome argv flags).events =
        Event.line ("Transaction hex: " ++ hexOfBytes (sb args)) :: rest := by
  intro v sb outcome argv flags args hv h
  cases hb : flags.broadcast
  · exact ⟨[Event.line (hexOfBytes (sb args))], by simp [run, h, hb, hv]⟩
  · cases outcome with
    | throws m => exact ⟨[Event.submit], by simp [run, h, hb, hv]⟩
    | returns r =>
      exact ⟨[Event.submit, Event.line ("Transaction ID: " ++ displayResult r),
        Event.line ("View in explorer: https://explorer.stacks.co/txid/0x" ++
          displayResult r ++ "?chain=" ++
          (if args.network.chainId = ChainID.Mainnet then "mainnet" else "testnet"))],
        by simp [run, h, hb, hv]⟩

/-- C9 witness: a verbose broadcast run whose submission promise rejects
still has the labeled hex line as its first event. -/
theorem C9_witness :
    ∃ rest,
      (run (fun _ => true) (fun _ => [222, 173]) (BroadcastOutcome.throws "ECONNREFUSED")
        ["STADMRP577SC3MCNP7T3PRSTZBJ75FJ59JGABZTW,100"]
        { privateKey := "k", broadcast := true, network := NetworkString.testnet,
          nodeUrl := none, verbose := true, contractAddress := none, nonce := none }).events =
      Event.line ("Transaction hex: " ++ hexOfBytes [222, 173]) :: rest :=
  C9_verbose_hex_line_first _ _ _ _ _
    { recipients := [{ address := "STADMRP577SC3MCNP7T3PRSTZBJ75FJ59JGABZTW", amount := "100" }]
      network := StacksTestnet, senderKey := "k",
      contractIdentifier := DEFAULT_TESTNET_CONTRACT, nonce := none }
    rfl rfl

/-- C10: the mocknet preset carries the Testnet chain identifier, so with
no explicit contract the default resolves to the testnet send-many
contract, and the explorer link of a verbose broadcast run ends in
`chain=testnet`. -/
theorem C10_mocknet_uses_testnet_chain :
    (∀ u : Option String,
      (resolveNetwork NetworkString.mocknet u).chainId = ChainID.Testnet ∧
      getContract (resolveNetwork NetworkString.mocknet u) =
        "STB44HYPYAT2BB2QE513NSP81HTMYWBJP02HPGK6.send-many") ∧
    (∀ (v : String → Bool) (sb : SendManyArgs → List Nat) (argv : List String)
       (flags : Flags) (args : SendManyArgs) (r : TxBroadcastResult),
      flags.network = NetworkString.mocknet → flags.verbose = true → flags.broadcast = true →
      sendManyArgsOf v argv flags = Except.ok args →
      (run v sb (BroadcastOutcome.returns r) argv flags).events.getLast? =
        some (Event.line ("View in explorer: https://explorer.stacks.co/txid/0x" ++
          displayResult r ++ "?chain=" ++ "testnet"))) := by
  constructor
  · intro u
    cases u with
    | none => exact ⟨rfl, rfl⟩
    | some w =>
      by_cases he : w = "" <;>
        simp [resolveNetwork, he, getNetwork, StacksMocknet, getContract,
          DEFAULT_TESTNET_CONTRACT]
  · intro v sb argv flags args r hnet hv hb h
    have hargs := sendManyArgsOf_ok h
    have hchain : args.network.chainId = ChainID.Testnet := by
      rw [hargs.1, hnet]
      cases flags.nodeUrl with
      | none => rfl
      | some u => by_cases he : u = "" <;> simp [resolveNetwork, he, getNetwork, StacksMocknet]
    have hmain : ¬args.network.chainId = ChainID.Mainnet := by
      rw [hchain]
      decide
    simp [run, h, hb, hv, hmain, List.getLast?]

/-- C10 witness: a verbose broadcast run on mocknet with transaction id
`"abc"` ends with an explorer link whose chain suffix is `testnet`. -/
theorem C10_witness :
    (run (fun _ => true) (fun _ => [1]) (BroadcastOutcome.returns (TxBroadcastResult.ok "abc"))
      ["STADMRP577SC3MCNP7T3PRSTZBJ75FJ59JGABZTW,1"]
      { privateKey := "k", broadcast := true, network := NetworkString.mocknet,
        nodeUrl := none, verbose := true, contractAddress := none, nonce := none }).events.getLast? =
      some (Event.line ("View in explorer: https://explorer.stacks.co/txid/0x" ++
        "abc" ++ "?chain=" ++ "testnet")) :=
  C10_mocknet_uses_testnet_chain.2 _ _ _ _
    { recipients := [{ address := "STADMRP577SC3MCNP7T3PRSTZBJ75FJ59JGABZTW", amount := "1" }]
      network := StacksMocknet, senderKey := "k",
      contractIdentifier := DEFAULT_TESTNET_CONTRACT, nonce := none }
    _ rfl rfl rfl rfl
